import Mathlib

/-!
Verification development for the weather-analysis core of the
Business_Visualization repository.

The Python code operates on pandas DataFrames whose columns come from a fixed
vocabulary of daily weather metrics.  We embed a DataFrame as a list of rows,
each row holding an optional rational for every metric (`none` models a
missing value, pandas NaN), together with the list of columns that are
actually present.  Machine floats are modelled by exact rationals; the float
value NaN, which can be stored in Python dicts, is modelled by `PyVal.nan`.
Python's `round(x, n)` (round-half-even) is modelled exactly on rationals.
-/

namespace BV

/-- The fixed column vocabulary used by the analysis code. -/
inductive Col
  | temp_max
  | temp_min
  | temp_mean
  | temperature
  | humidity
  | precipitation
  | wind_speed_max
  | wind_speed
  | date
deriving DecidableEq

/-- One DataFrame row: an optional value per column.  `none` is a missing
value (NaN).  Dates are modelled as abstract rationals; only their order is
ever used by the embedded code. -/
structure Row where
  temp_max : Option ℚ := none
  temp_min : Option ℚ := none
  temp_mean : Option ℚ := none
  temperature : Option ℚ := none
  humidity : Option ℚ := none
  precipitation : Option ℚ := none
  wind_speed_max : Option ℚ := none
  wind_speed : Option ℚ := none
  date : Option ℚ := none
deriving DecidableEq

/-- Cell access by column name. -/
def Row.get (r : Row) : Col → Option ℚ
  | .temp_max => r.temp_max
  | .temp_min => r.temp_min
  | .temp_mean => r.temp_mean
  | .temperature => r.temperature
  | .humidity => r.humidity
  | .precipitation => r.precipitation
  | .wind_speed_max => r.wind_speed_max
  | .wind_speed => r.wind_speed
  | .date => r.date

/-- A DataFrame: the set of present columns and the rows in order.  A cell of
a column that is not listed in `cols` is never consulted. -/
structure DataFrame where
  cols : List Col
  rows : List Row
deriving DecidableEq

/-- `c in df.columns`. -/
def DataFrame.hasCol (df : DataFrame) (c : Col) : Bool :=
  df.cols.contains c

/-- `df[c].dropna()`: the non-missing values of a column, in row order. -/
def DataFrame.dropna (df : DataFrame) (c : Col) : List ℚ :=
  df.rows.filterMap (fun r => r.get c)

/-- Column-resolution loop over `['temp_max', 'temp_mean', 'temperature']`:
first present column wins. -/
def resolveTempCol (df : DataFrame) : Option Col :=
  if df.hasCol .temp_max then some .temp_max
  else if df.hasCol .temp_mean then some .temp_mean
  else if df.hasCol .temperature then some .temperature
  else none

/-- Column-resolution loop over `['wind_speed_max', 'wind_speed']`. -/
def resolveWindCol (df : DataFrame) : Option Col :=
  if df.hasCol .wind_speed_max then some .wind_speed_max
  else if df.hasCol .wind_speed then some .wind_speed
  else none

/-- `series.min()` of a non-missing list (call sites guard non-emptiness;
the `[]` result is never used). -/
def listMin : List ℚ → ℚ
  | [] => 0
  | x :: xs => xs.foldl min x

/-- `series.max()` of a non-missing list. -/
def listMax : List ℚ → ℚ
  | [] => 0
  | x :: xs => xs.foldl max x

/-- `series.mean()` of a non-missing list (call sites guard non-emptiness). -/
def listMean (l : List ℚ) : ℚ :=
  l.sum / (l.length : ℚ)

/-- Sample variance, pandas `ddof=1`; only consulted for length ≥ 2. -/
def sampleVar (l : List ℚ) : ℚ :=
  ((l.map (fun x => (x - listMean l) ^ 2)).sum) / ((l.length - 1 : ℕ) : ℚ)

/-- Floor of a rational as an integer (`Int.fdiv` is floor division and
`den > 0`). -/
def ratFloor (x : ℚ) : ℤ :=
  Int.fdiv x.num (x.den : ℤ)

/-- Round-half-even of a rational to the nearest integer, the tie-breaking
rule of Python's `round`. -/
def heInt (y : ℚ) : ℤ :=
  let f := ratFloor y
  let r := y - (f : ℚ)
  if 1 / 2 < r then f + 1
  else if r < 1 / 2 then f
  else if f % 2 = 0 then f else f + 1

/-- Python `round(x, 1)` modelled exactly on the rational value. -/
def round1 (x : ℚ) : ℚ :=
  (heInt (10 * x) : ℚ) / 10

/-- Python `round(x, 3)`. -/
def round3 (x : ℚ) : ℚ :=
  (heInt (1000 * x) : ℚ) / 1000

/-- Fuel-driven integer square root (digit-by-digit recursion on `n / 4`;
`n` itself is always enough fuel).  Structural recursion keeps it
kernel-reducible. -/
def isqrtFuel : ℕ → ℕ → ℕ
  | 0, _ => 0
  | fuel + 1, n =>
    if n < 2 then n
    else
      let r := 2 * isqrtFuel fuel (n / 4)
      if (r + 1) * (r + 1) ≤ n then r + 1 else r

/-- Integer square root: the largest `k` with `k * k ≤ n`. -/
def isqrt (n : ℕ) : ℕ := isqrtFuel n n

/-- Python `round(sqrt v, 1)` for `v ≥ 0`, computed exactly on rationals:
the integer square root of the floor gives the integer part of
`10·sqrt v`, and the half-point comparison is done by squaring. -/
def roundSqrt1 (v : ℚ) : ℚ :=
  let m : ℕ := isqrt (ratFloor (100 * v)).toNat
  let n : ℕ :=
    if ((2 * m + 1 : ℕ) : ℚ) ^ 2 < 400 * v then m + 1
    else if 400 * v < ((2 * m + 1 : ℕ) : ℚ) ^ 2 then m
    else if m % 2 = 0 then m else m + 1
  (n : ℚ) / 10

/-- A Python float stored in a result dict: either NaN or a (modelled-exact)
numeric value. -/
inductive PyVal
  | nan
  | q (x : ℚ)
deriving DecidableEq

/-- `round(series.std(), 1)` with pandas `ddof=1`: NaN when fewer than two
values, else the rounded square root of the sample variance. -/
def pyStdRound1 (l : List ℚ) : PyVal :=
  if l.length ≤ 1 then PyVal.nan else PyVal.q (roundSqrt1 (sampleVar l))

/-- Float comparison `a > b`: false when `a` is NaN. -/
def pvGt (a : PyVal) (b : ℚ) : Bool :=
  match a with
  | .nan => false
  | .q x => b < x

/-- Float comparison `a < b`: false when `a` is NaN. -/
def pvLt (a : PyVal) (b : ℚ) : Bool :=
  match a with
  | .nan => false
  | .q x => x < b

/-- Float comparison `a == b`: false when `a` is NaN. -/
def pvEq (a : PyVal) (b : ℚ) : Bool :=
  match a with
  | .nan => false
  | .q x => x = b

/-- Float subtraction: NaN propagates. -/
def pvSub (a b : PyVal) : PyVal :=
  match a, b with
  | .q x, .q y => .q (x - y)
  | _, _ => .nan

/-!
### `src/data_processing/data_handler.py`
-/

/-- Result of `calculate_statistics`: a dict of per-metric dicts.  Each block
is modelled as the association list the Python code literally builds, so that
presence or absence of a key (such as `"std"`) is expressible. -/
structure Statistics where
  temperature : Option (List (String × PyVal)) := none
  precipitation : Option (List (String × PyVal)) := none
  wind : Option (List (String × PyVal)) := none
deriving DecidableEq

/-- `WeatherDataHandler.calculate_statistics(df, temp_col='temp_mean')`. -/
def calculate_statistics (df : DataFrame) (temp_col : Col := .temp_mean) :
    Statistics :=
  if df.rows = [] then {}
  else
    { temperature :=
        if df.hasCol temp_col then
          let temp_data := df.dropna temp_col
          if temp_data = [] then none
          else some
            [("mean", .q (round1 (listMean temp_data))),
             ("min", .q (round1 (listMin temp_data))),
             ("max", .q (round1 (listMax temp_data))),
             ("std", pyStdRound1 temp_data)]
        else none
      precipitation :=
        if df.hasCol .precipitation then
          let precip_data := df.dropna .precipitation
          if precip_data = [] then none
          else some
            [("total", .q (round1 precip_data.sum)),
             ("mean", .q (round1 (listMean precip_data))),
             ("max", .q (round1 (listMax precip_data))),
             ("rainy_days", .q ((precip_data.filter (fun x => 0 < x)).length : ℚ))]
        else none
      wind :=
        if df.hasCol .wind_speed_max then
          let wind_data := df.dropna .wind_speed_max
          if wind_data = [] then none
          else some
            [("mean", .q (round1 (listMean wind_data))),
             ("max", .q (round1 (listMax wind_data)))]
        else none }

/-- The truth value of `abs((x - mean) / std) > threshold` in float
semantics, where `var` is the variance (`std = sqrt var`).  A missing value
gives a NaN z-score, hence `false`.  With `std = 0`, the quotient is `±inf`
for `x ≠ mean` (so `true` for every finite threshold) and NaN for
`x = mean` (so `false`).  For `std > 0` and `t ≥ 0` the comparison is
equivalent to the squared form; a negative threshold is below every
non-negative z-score. -/
def anomalyFlag (mean_val var_val t : ℚ) : Option ℚ → Bool
  | none => false
  | some x =>
    if var_val = 0 then x ≠ mean_val
    else if t < 0 then true
    else t ^ 2 * var_val < (x - mean_val) ^ 2

/-- `WeatherDataHandler.detect_anomalies(df, column='temp_mean',
threshold=2.0)`.  The Python code returns the anomalous rows (plus helper
columns `z_score`/`is_anomaly`, which are reflected in the flag predicate);
we return the list of flagged rows. -/
def detect_anomalies (df : DataFrame) (column : Col := .temp_mean)
    (threshold : ℚ := 2) : List Row :=
  if df.rows = [] ∨ df.hasCol column = false then []
  else
    let data := df.dropna column
    if data.length < 10 then []
    else
      let mean_val := listMean data
      let var_val := sampleVar data
      df.rows.filter (fun r => anomalyFlag mean_val var_val threshold (r.get column))

/-!
### `src/utils/weather_analysis.py`
-/

/-- The `alert_thresholds` dict of `WeatherAnalyzer.__init__`. -/
structure AlertThresholds where
  extreme_heat : ℚ := 38
  high_heat : ℚ := 35
  cold : ℚ := 15
  extreme_cold : ℚ := 5
  heavy_rain : ℚ := 50
  very_heavy_rain : ℚ := 100
  strong_wind : ℚ := 25
  very_strong_wind : ℚ := 40

def alert_thresholds : AlertThresholds := {}

/-- One alert dict.  The Python dicts carry one extra metric datum under a
per-alert key name (`max_temp`, `min_temp`, `max_rain` or `max_wind`);
it is modelled by the single field `value`. -/
structure Alert where
  atype : String
  title : String
  message : String
  count : ℕ
  value : ℚ
deriving DecidableEq

/-- `df[df[c] >= thr]`: rows whose value in `c` is present and `≥ thr`
(a NaN comparison is false, so missing rows are dropped). -/
def rowsGE (df : DataFrame) (c : Col) (thr : ℚ) : List Row :=
  df.rows.filter (fun r =>
    match r.get c with
    | some v => thr ≤ v
    | none => false)

/-- `df[df[c] <= thr]`. -/
def rowsLE (df : DataFrame) (c : Col) (thr : ℚ) : List Row :=
  df.rows.filter (fun r =>
    match r.get c with
    | some v => v ≤ thr
    | none => false)

/-- Values of column `c` over a row subset (all present at call sites). -/
def valsOf (l : List Row) (c : Col) : List ℚ :=
  l.filterMap (fun r => r.get c)

/-- The extreme-heat / high-heat `if`/`elif` of `generate_weather_alerts`. -/
def heatAlerts (df : DataFrame) (c : Col) : List Alert :=
  let extreme_hot := rowsGE df c alert_thresholds.extreme_heat
  if extreme_hot ≠ [] then
    [{ atype := "danger"
       title := "🔥 Cảnh báo nắng nóng cực đoan"
       message := "Có " ++ toString extreme_hot.length ++ " ngày nhiệt độ ≥ 38°C"
       count := extreme_hot.length
       value := listMax (valsOf extreme_hot c) }]
  else
    let hot_days := rowsGE df c alert_thresholds.high_heat
    if 0 < hot_days.length then
      [{ atype := "warning"
         title := "🌡️ Cảnh báo nắng nóng"
         message := "Có " ++ toString hot_days.length ++ " ngày nhiệt độ ≥ 35°C"
         count := hot_days.length
         value := listMax (valsOf hot_days c) }]
    else []

/-- The cold-weather check of `generate_weather_alerts`. -/
def coldAlerts (df : DataFrame) (c : Col) : List Alert :=
  let cold_days := rowsLE df c alert_thresholds.cold
  if cold_days ≠ [] then
    [{ atype :=
         if listMin (valsOf cold_days c) ≤ alert_thresholds.extreme_cold
         then "danger" else "info"
       title := "❄️ Cảnh báo thời tiết lạnh"
       message := "Có " ++ toString cold_days.length ++ " ngày nhiệt độ ≤ 15°C"
       count := cold_days.length
       value := listMin (valsOf cold_days c) }]
  else []

/-- The heavy-rain check of `generate_weather_alerts`. -/
def rainAlerts (df : DataFrame) : List Alert :=
  if df.hasCol .precipitation then
    let heavy_rain := rowsGE df .precipitation alert_thresholds.heavy_rain
    if heavy_rain ≠ [] then
      [{ atype :=
           if alert_thresholds.very_heavy_rain ≤ listMax (valsOf heavy_rain .precipitation)
           then "danger" else "warning"
         title := "🌧️ Cảnh báo mưa to"
         message := "Có " ++ toString heavy_rain.length ++ " ngày mưa ≥ 50mm"
         count := heavy_rain.length
         value := listMax (valsOf heavy_rain .precipitation) }]
    else []
  else []

/-- The strong-wind check of `generate_weather_alerts`. -/
def windAlerts (df : DataFrame) : List Alert :=
  match resolveWindCol df with
  | some c =>
    let strong_wind := rowsGE df c alert_thresholds.strong_wind
    if strong_wind ≠ [] then
      [{ atype :=
           if alert_thresholds.very_strong_wind ≤ listMax (valsOf strong_wind c)
           then "danger" else "warning"
         title := "💨 Cảnh báo gió mạnh"
         message := "Có " ++ toString strong_wind.length ++ " ngày gió ≥ 25km/h"
         count := strong_wind.length
         value := listMax (valsOf strong_wind c) }]
    else []
  | none => []

/-- `WeatherAnalyzer.generate_weather_alerts(df)`: the alert list is built in
source order — temperature (heat then cold), precipitation, wind. -/
def generate_weather_alerts (df : DataFrame) : List Alert :=
  if df.rows = [] then []
  else
    (match resolveTempCol df with
     | some c => heatAlerts df c ++ coldAlerts df c
     | none => []) ++ rainAlerts df ++ windAlerts df

/-- The per-day comfort score of `calculate_climate_indices`. -/
def comfortScore (temp humidity : ℚ) : ℚ :=
  if 18 ≤ temp ∧ temp ≤ 26 ∧ 40 ≤ humidity ∧ humidity ≤ 60 then 100
  else if 15 ≤ temp ∧ temp ≤ 30 ∧ 30 ≤ humidity ∧ humidity ≤ 70 then 75
  else 50

/-- The `comfort_scores` list of `calculate_climate_indices`: the code zips
the separately `dropna`-ed temperature and humidity columns, pairing the
i-th non-missing temperature with the i-th non-missing humidity (`zip`
truncates to the shorter list). -/
def comfortScores (df : DataFrame) (c : Col) : List ℚ :=
  (List.zip (df.dropna c) (df.dropna .humidity)).map
    (fun p => comfortScore p.1 p.2)

/-- `WeatherAnalyzer._get_comfort_level`. -/
def get_comfort_level (score : ℚ) : String :=
  if 90 ≤ score then "Rất thoải mái"
  else if 75 ≤ score then "Thoải mái"
  else if 60 ≤ score then "Khá thoải mái"
  else if 40 ≤ score then "Không thoải mái"
  else "Rất không thoải mái"

structure TempIndices where
  mean_temp : ℚ
  temp_range : ℚ
  hot_days : ℕ
  cool_days : ℕ
  temp_variability : PyVal
deriving DecidableEq

structure PrecipIndices where
  total_precipitation : ℚ
  rainy_days : ℕ
  dry_days : ℕ
  average_rain_per_rainy_day : ℚ
  max_daily_rain : ℚ
  precipitation_intensity : String
deriving DecidableEq

structure ComfortIndex where
  comfort_score : ℚ
  comfort_level : String
  comfortable_days : ℕ
deriving DecidableEq

structure ClimateIndices where
  temperature_indices : Option TempIndices := none
  precipitation_indices : Option PrecipIndices := none
  comfort_index : Option ComfortIndex := none
deriving DecidableEq

/-- `WeatherAnalyzer.calculate_climate_indices(df)`.  Row order is preserved
(the code only converts the date column, it does not sort here). -/
def calculate_climate_indices (df : DataFrame) : ClimateIndices :=
  if df.rows = [] ∨ df.hasCol .date = false then {}
  else
    { temperature_indices :=
        match resolveTempCol df with
        | some c =>
          let temp_data := df.dropna c
          if temp_data = [] then none
          else some
            { mean_temp := round1 (listMean temp_data)
              temp_range := round1 (listMax temp_data - listMin temp_data)
              hot_days := (temp_data.filter (fun x => 30 < x)).length
              cool_days := (temp_data.filter (fun x => x < 20)).length
              temp_variability := pyStdRound1 temp_data }
        | none => none
      precipitation_indices :=
        if df.hasCol .precipitation then
          let precip_data := df.dropna .precipitation
          if precip_data = [] then none
          else
            let rainy_days := (precip_data.filter (fun x => 0 < x)).length
            some
              { total_precipitation := round1 precip_data.sum
                rainy_days := rainy_days
                dry_days := (precip_data.filter (fun x => x = 0)).length
                average_rain_per_rainy_day :=
                  if 0 < rainy_days
                  then round1 (listMean (precip_data.filter (fun x => 0 < x)))
                  else 0
                max_daily_rain := round1 (listMax precip_data)
                precipitation_intensity :=
                  if 5 < listMean precip_data then "Cao" else "Thấp" }
        else none
      comfort_index :=
        match resolveTempCol df with
        | some c =>
          if df.hasCol .humidity then
            let temp_data := df.dropna c
            let humidity_data := df.dropna .humidity
            if temp_data ≠ [] ∧ humidity_data ≠ [] then
              let scores := comfortScores df c
              if scores ≠ [] then
                let avg_comfort := listMean scores
                some
                  { comfort_score := round1 avg_comfort
                    comfort_level := get_comfort_level avg_comfort
                    comfortable_days := (scores.filter (fun s => s = 100)).length }
              else none
            else none
          else none
        | none => none }

/-- Date comparison for `df.sort_values('date')` with missing dates (NaT)
placed last, pandas' default `na_position='last'`. -/
def dateLe (a b : Row) : Bool :=
  match a.date, b.date with
  | some x, some y => x ≤ y
  | some _, none => true
  | none, some _ => false
  | none, none => true

/-- Stable insertion into a date-sorted list. -/
def insertByDate (r : Row) : List Row → List Row
  | [] => [r]
  | s :: rest => if dateLe r s then r :: s :: rest else s :: insertByDate r rest

/-- Stable sort by date (`df.sort_values('date')`; order among equal dates is
irrelevant to every property proved below). -/
def sortByDate (l : List Row) : List Row :=
  l.foldr insertByDate []

/-- The row order `detect_weather_patterns` works on: sorted by date when a
date column is present, otherwise the given order. -/
def patternRows (df : DataFrame) : List Row :=
  if df.hasCol .date then sortByDate df.rows else df.rows

/-- The non-missing series of column `c` that the pattern loops iterate
over. -/
def patternSeq (df : DataFrame) (c : Col) : List ℚ :=
  (patternRows df).filterMap (fun r => r.get c)

/-- Ordinary-least-squares slope of `np.polyfit(arange(n), y, 1)[0]` against
the 0-based index (denominator positive for `n ≥ 2`). -/
def slopeOLS (l : List ℚ) : ℚ :=
  let n : ℚ := (l.length : ℚ)
  let sx : ℚ := ((List.range l.length).map (fun i => (i : ℚ))).sum
  let sxx : ℚ := ((List.range l.length).map (fun i => ((i : ℚ)) ^ 2)).sum
  let sy : ℚ := l.sum
  let sxy : ℚ := (l.enum.map (fun p => (p.1 : ℚ) * p.2)).sum
  (n * sxy - sx * sy) / (n * sxx - sx ^ 2)

/-- The generic streak loop of the pattern detector: walking the list, a hit
extends the current streak and counts one day whenever the streak has
reached `m`, a miss resets the streak.  State is `(current_streak, count)`. -/
def streakFold (m : ℕ) (hit : ℚ → Bool) : List ℚ → ℕ × ℕ → ℕ × ℕ
  | [], s => s
  | x :: xs, (cur, cnt) =>
    if hit x then
      streakFold m hit xs (cur + 1, if m ≤ cur + 1 then cnt + 1 else cnt)
    else
      streakFold m hit xs (0, cnt)

/-- The count produced by the streak loop started from zero. -/
def streakCount (m : ℕ) (hit : ℚ → Bool) (l : List ℚ) : ℕ :=
  (streakFold m hit l (0, 0)).2

/-- The dry/wet-spell loop of `detect_weather_patterns`, with state
`(current_dry_streak, current_wet_streak, dry_spell_days, wet_spell_days)`.
A zero-precipitation day extends the dry streak and resets the wet streak;
any other day (the `else` branch, i.e. any non-zero value) does the
opposite. -/
def spellFold : List ℚ → ℕ × ℕ × ℕ × ℕ → ℕ × ℕ × ℕ × ℕ
  | [], s => s
  | p :: rest, (cds, cws, dsd, wsd) =>
    if p = 0 then
      spellFold rest (cds + 1, 0, if 5 ≤ cds + 1 then dsd + 1 else dsd, wsd)
    else
      spellFold rest (0, cws + 1, dsd, if 3 ≤ cws + 1 then wsd + 1 else wsd)

structure TempPatterns where
  trend : String
  trend_slope : ℚ
  heat_wave_days : ℕ
  temperature_volatility : String
deriving DecidableEq

structure PrecipPatterns where
  dry_spell_days : ℕ
  wet_spell_days : ℕ
  rain_consistency : String
deriving DecidableEq

structure Patterns where
  temperature_patterns : Option TempPatterns := none
  precipitation_patterns : Option PrecipPatterns := none
deriving DecidableEq

/-- `WeatherAnalyzer.detect_weather_patterns(df)`.  `std > 5` and `std < 10`
are expressed by the equivalent squared comparisons on the sample
variance. -/
def detect_weather_patterns (df : DataFrame) : Patterns :=
  if df.rows.length < 7 then {}
  else
    { temperature_patterns :=
        match resolveTempCol df with
        | some c =>
          let temp_data := patternSeq df c
          if 7 ≤ temp_data.length then
            let slope := slopeOLS temp_data
            some
              { trend :=
                  if 1 / 5 < slope then "Tăng"
                  else if slope < -(1 / 5) then "Giảm"
                  else "Ổn định"
                trend_slope := round3 slope
                heat_wave_days := streakCount 3 (fun t => decide (35 < t)) temp_data
                temperature_volatility :=
                  if 25 < sampleVar temp_data then "Cao" else "Thấp" }
          else none
        | none => none
      precipitation_patterns :=
        if df.hasCol .precipitation then
          let precip_data := patternSeq df .precipitation
          if 7 ≤ precip_data.length then
            let r := spellFold precip_data (0, 0, 0, 0)
            some
              { dry_spell_days := r.2.2.1
                wet_spell_days := r.2.2.2
                rain_consistency :=
                  if sampleVar precip_data < 100 then "Đều" else "Không đều" }
          else none
        else none }

/-!
### `src/utils/weather_reports.py`

The templates return one Markdown string built line by line; we model the
report as its list of lines (the Python string is the `"\n"`-join).  The
wall-clock timestamp interpolated into the footer is passed in as the
explicit argument `now`; digit-level rendering of dates and of raw float
values is modelled by an exact decimal rendering of the idealized rational
(`fmtPy`), which no proved property depends on.
-/

/-- Python `str()` of a modelled float value (idealized rendering). -/
def fmtPy (x : ℚ) : String :=
  if x.den = 1 then toString x.num ++ ".0"
  else toString x.num ++ "/" ++ toString x.den

/-- Python `f"{x:.1f}"` on the idealized rational value: one decimal digit,
round-half-even, sign taken from the value. -/
def fmtQ1 (x : ℚ) : String :=
  let t : ℕ := (heInt (10 * |x|)).toNat
  (if x < 0 then "-" else "") ++ toString (t / 10) ++ "." ++ toString (t % 10)

/-- `f"{v:.1f}"` where `v` may be NaN (`f"{nan:.1f}"` is `"nan"`). -/
def fmtPV1 : PyVal → String
  | .nan => "nan"
  | .q x => fmtQ1 x

/-- What `row.get(key, default)` can yield for a metric cell: the key may be
absent (column not in the frame), the stored float may be NaN, or a value is
present. -/
inductive CellVal
  | absent
  | nan
  | val (x : ℚ)
deriving DecidableEq

/-- `latest_data.get(c, 'N/A')` for a single column. -/
def cellOf (df : DataFrame) (r : Row) (c : Col) : CellVal :=
  if df.hasCol c then
    match r.get c with
    | some v => .val v
    | none => .nan
  else .absent

/-- `latest_data.get(c1, latest_data.get(c2, 'N/A'))`. -/
def cellFallback (df : DataFrame) (r : Row) (c1 c2 : Col) : CellVal :=
  if df.hasCol c1 then cellOf df r c1
  else if df.hasCol c2 then cellOf df r c2
  else .absent

/-- Rendering of a cell inside an f-string: absent keys were defaulted to
the string `'N/A'`, NaN prints as `"nan"`. -/
def renderCell : CellVal → String
  | .absent => "N/A"
  | .nan => "nan"
  | .val x => fmtPy x

/-- `df.tail(1).iloc[0]`: the last row (call sites guard non-emptiness). -/
def lastRow (df : DataFrame) : Row :=
  (df.rows.getLast?).getD {}

/-- The `latest_date` display of the daily template: max of the date column
when present (NaN-skipping; an all-missing column prints `"nan"`), else the
formatted current time. -/
def dailyDateDisp (df : DataFrame) (now : String) : String :=
  if df.hasCol .date then
    match df.dropna .date with
    | [] => "nan"
    | l => fmtPy (listMax l)
  else now

/-- The comment block of `_daily_template`.  A NaN temperature is still a
float instance, and both threshold comparisons are false on NaN, so it takes
the final `else` branch; an absent temperature (the `'N/A'` string) fails
the `isinstance` check and adds no comment.  The rain comment requires a
present value `> 10`. -/
def dailyComments (temp precip : CellVal) : List String :=
  (match temp with
   | .val t =>
     if 35 ≤ t then
       ["⚠️ **Cảnh báo nắng nóng** - Nhiệt độ rất cao, hạn chế ra ngoài vào giữa trưa."]
     else if t ≤ 15 then
       ["❄️ **Thời tiết lạnh** - Nên mặc ấm khi ra ngoài."]
     else
       ["😊 **Thời tiết dễ chịu** - Thích hợp cho các hoạt động ngoài trời."]
   | .nan => ["😊 **Thời tiết dễ chịu** - Thích hợp cho các hoạt động ngoài trời."]
   | .absent => []) ++
  (match precip with
   | .val p => if 10 < p then ["🌧️ **Có mưa** - Nên mang ô khi ra ngoài."] else []
   | _ => [])

/-- The four metric bullet lines of the daily report, in source order. -/
def dailyParamLines (df : DataFrame) (r : Row) : List String :=
  ["- **🌡️ Nhiệt độ:** " ++ renderCell (cellFallback df r .temp_mean .temperature) ++ "°C",
   "- **💧 Độ ẩm:** " ++ renderCell (cellOf df r .humidity) ++ "%",
   "- **🌧️ Lượng mưa:** " ++ renderCell (cellOf df r .precipitation) ++ "mm",
   "- **💨 Tốc độ gió:** " ++ renderCell (cellFallback df r .wind_speed_max .wind_speed) ++ "km/h"]

/-- `WeatherReportGenerator._daily_template(df, city_name, ...)` as its list
of lines (an empty frame yields the empty string, i.e. the single empty
line). -/
def dailyLines (df : DataFrame) (city now : String) : List String :=
  if df.rows = [] then [""]
  else
    let r := lastRow df
    ["",
     "# 🌤️ Báo cáo thời tiết hàng ngày - " ++ city,
     "",
     "**Ngày:** " ++ dailyDateDisp df now,
     "",
     "## 📊 Thông số chính",
     ""] ++
    dailyParamLines df r ++
    ["",
     "## 🔍 Nhận xét",
     ""] ++
    (dailyComments (cellFallback df r .temp_mean .temperature)
        (cellOf df r .precipitation)).flatMap (fun s => [s, ""]) ++
    ["*Báo cáo được tạo tự động lúc " ++ now ++ "*"]

/-- `_daily_template` as the string it returns. -/
def daily_template (df : DataFrame) (city now : String) : String :=
  String.intercalate "\n" (dailyLines df city now)

/-- Weekly-template column choice: `'temp_mean' if 'temp_mean' in df.columns
else 'temperature'`. -/
def weeklyTempCol (df : DataFrame) : Col :=
  if df.hasCol .temp_mean then .temp_mean else .temperature

/-- The `temp_avg`/`temp_min`/`temp_max` entries of the weekly `stats` dict:
present exactly when the chosen temperature column is in the frame.  pandas
mean/min/max of an empty (all-missing) column is NaN. -/
def weeklyTempStats (df : DataFrame) : Option (PyVal × PyVal × PyVal) :=
  if df.hasCol (weeklyTempCol df) then
    let temp_data := df.dropna (weeklyTempCol df)
    some
      (if temp_data = [] then .nan else .q (listMean temp_data),
       if temp_data = [] then .nan else .q (listMin temp_data),
       if temp_data = [] then .nan else .q (listMax temp_data))
  else none

/-- The `precip_total`/`rainy_days` entries of the weekly `stats` dict
(pandas sum of an empty column is `0.0`, never NaN). -/
def weeklyPrecipStats (df : DataFrame) : Option (ℚ × ℕ) :=
  if df.hasCol .precipitation then
    let precip_data := df.dropna .precipitation
    some (precip_data.sum, (precip_data.filter (fun x => 0 < x)).length)
  else none

/-- Start/end date display of the weekly template: the string `"N/A"` when
no date column exists. -/
def weeklyDateDisp (df : DataFrame) (pick : List ℚ → ℚ) : String :=
  if df.hasCol .date then
    match df.dropna .date with
    | [] => "nan"
    | l => fmtPy (pick l)
  else "N/A"

/-- Weekly temperature commentary (`if 'temp_avg' in stats`); NaN fails both
threshold comparisons and lands on the mild line. -/
def weeklyTempComment (df : DataFrame) : List String :=
  match weeklyTempStats df with
  | none => []
  | some (avg, _, _) =>
    [if pvGt avg 30 then "🔥 **Tuần nóng** - Nhiệt độ trung bình cao."
     else if pvLt avg 20 then "❄️ **Tuần lạnh** - Nhiệt độ trung bình thấp."
     else "😊 **Thời tiết ôn hòa** - Nhiệt độ dễ chịu."]

/-- Weekly precipitation commentary (`if 'precip_total' in stats`). -/
def weeklyPrecipComment (df : DataFrame) : List String :=
  match weeklyPrecipStats df with
  | none => []
  | some (total, _) =>
    if 50 < total then ["🌧️ **Tuần mưa nhiều** - Lượng mưa cao."]
    else if total = 0 then ["☀️ **Tuần khô ráo** - Không có mưa."]
    else []

/-- Weekly temperature-range commentary; a NaN range fails the `> 15`
check. -/
def weeklyRangeComment (df : DataFrame) : List String :=
  match weeklyTempStats df with
  | none => []
  | some (_, mn, mx) =>
    if pvGt (pvSub mx mn) 15 then
      ["📊 **Dao động nhiệt độ lớn** - Chênh lệch nhiệt độ trong tuần cao."]
    else []

/-- The two precipitation bullet lines of the weekly statistics block:
`stats.get(key, 0)` renders the default `0` through `:.1f` as `"0.0"` (and
`rainy_days` as `"0"`) whenever the precipitation column is absent. -/
def weeklyPrecipLines (df : DataFrame) : List String :=
  ["- **Tổng lượng mưa:** " ++
     ((weeklyPrecipStats df).elim "0.0" (fun s => fmtQ1 s.1)) ++ "mm",
   "- **Số ngày mưa:** " ++
     ((weeklyPrecipStats df).elim "0" (fun s => toString s.2)) ++ " ngày"]

/-- `WeatherReportGenerator._weekly_template(df, city_name, ...)` as its
list of lines. -/
def weeklyLines (df : DataFrame) (city now : String) : List String :=
  if df.rows = [] then [""]
  else
    ["",
     "# 📈 Báo cáo thời tiết tuần - " ++ city,
     "",
     "**Khoảng thời gian:** " ++ weeklyDateDisp df listMin ++ " - " ++
       weeklyDateDisp df listMax,
     "",
     "## 📊 Tóm tắt thống kê",
     "",
     "### 🌡️ Nhiệt độ",
     "- **Trung bình:** " ++
       fmtPV1 ((weeklyTempStats df).elim (.q 0) (fun s => s.1)) ++ "°C",
     "- **Cao nhất:** " ++
       fmtPV1 ((weeklyTempStats df).elim (.q 0) (fun s => s.2.2)) ++ "°C  ",
     "- **Thấp nhất:** " ++
       fmtPV1 ((weeklyTempStats df).elim (.q 0) (fun s => s.2.1)) ++ "°C",
     "",
     "### 🌧️ Lượng mưa"] ++
    weeklyPrecipLines df ++
    ["",
     "## 🔍 Phân tích xu hướng",
     ""] ++
    weeklyTempComment df ++ weeklyPrecipComment df ++ weeklyRangeComment df ++
    ["", "*Báo cáo được tạo tự động lúc " ++ now ++ "*"]

/-- `_weekly_template` as the string it returns. -/
def weekly_template (df : DataFrame) (city now : String) : String :=
  String.intercalate "\n" (weeklyLines df city now)

/-!
### Specification-side notions

Maximal-run decompositions and row-paired comfort scores, used to state the
streak and pairing claims.
-/

/-- Lengths of the maximal runs of elements satisfying `hit`, scanning left
to right, with `cur` the length of the run in progress. -/
def runLens (hit : ℚ → Bool) : ℕ → List ℚ → List ℕ
  | cur, [] => if cur = 0 then [] else [cur]
  | cur, x :: xs =>
    if hit x then runLens hit (cur + 1) xs
    else if cur = 0 then runLens hit 0 xs
    else cur :: runLens hit 0 xs

/-- Lengths of the maximal runs of elements satisfying `hit`. -/
def runLengths (hit : ℚ → Bool) (l : List ℚ) : List ℕ :=
  runLens hit 0 l

/-- Total day count when each maximal run of length `k` contributes its days
that are `m`-th or later in the run, i.e. `max 0 (k - (m - 1))`. -/
def spellSum (m : ℕ) (ks : List ℕ) : ℕ :=
  (ks.map (fun k => k - (m - 1))).sum

/-- Row-paired comfort scores as the specification words them: one score per
row in which both the temperature and the humidity value are non-missing,
in row order. -/
def comfortScoresSpec (df : DataFrame) (c : Col) : List ℚ :=
  df.rows.filterMap (fun r =>
    match r.get c, r.humidity with
    | some t, some h => some (comfortScore t h)
    | _, _ => none)

/-!
### Core lemmas
-/

/-- The streak loop, started mid-run with streak `cur` and count `c`,
produces exactly the run-length contributions of the remaining list, the
carried run included (the days of the first run already counted are the
`cur - (m-1)` subtracted on the left). -/
theorem streakFold_runLens (m : ℕ) (hit : ℚ → Bool) (l : List ℚ)
    (cur c : ℕ) :
    (streakFold m hit l (cur, c)).2 + (cur - (m - 1))
      = c + spellSum m (runLens hit cur l) := by
  induction l generalizing cur c with
  | nil =>
    by_cases h : cur = 0 <;> simp [streakFold, runLens, spellSum, h]
  | cons x xs ih =>
    by_cases h : hit x = true
    · simp only [streakFold, runLens]
      rw [if_pos h, if_pos h]
      by_cases hm : m ≤ cur + 1
      · rw [if_pos hm]
        have key := ih (cur + 1) (c + 1)
        omega
      · rw [if_neg hm]
        have key := ih (cur + 1) c
        omega
    · simp only [streakFold, runLens]
      rw [if_neg h, if_neg h]
      have key := ih 0 c
      by_cases hc : cur = 0
      · rw [if_pos hc]
        omega
      · rw [if_neg hc]
        have expand : spellSum m (cur :: runLens hit 0 xs)
            = (cur - (m - 1)) + spellSum m (runLens hit 0 xs) := by
          simp [spellSum, Nat.add_comm]
        omega

/-- The streak loop counts, over each maximal run of length `k`, exactly the
days that are `m`-th or later in the run. -/
theorem streakCount_runLengths (m : ℕ) (hit : ℚ → Bool) (l : List ℚ) :
    streakCount m hit l = spellSum m (runLengths hit l) := by
  have h := streakFold_runLens m hit l 0 0
  simpa [streakCount, runLengths] using h

/-- The dry-day counter of the two-streak loop is the single-streak loop
with threshold 5 on zero-precipitation hits. -/
theorem spellFold_dry (l : List ℚ) (a b c d : ℕ) :
    (spellFold l (a, b, c, d)).2.2.1
      = (streakFold 5 (fun p => decide (p = 0)) l (a, c)).2 := by
  induction l generalizing a b c d with
  | nil => rfl
  | cons x xs ih =>
    simp only [spellFold, streakFold, decide_eq_true_eq]
    by_cases h : x = 0
    · rw [if_pos h, if_pos h]
      exact ih _ _ _ _
    · rw [if_neg h, if_neg h]
      exact ih _ _ _ _

/-- The wet-day counter of the two-streak loop is the single-streak loop
with threshold 3 on non-zero-precipitation hits. -/
theorem spellFold_wet (l : List ℚ) (a b c d : ℕ) :
    (spellFold l (a, b, c, d)).2.2.2
      = (streakFold 3 (fun p => decide (¬ p = 0)) l (b, d)).2 := by
  induction l generalizing a b c d with
  | nil => rfl
  | cons x xs ih =>
    simp only [spellFold, streakFold, decide_eq_true_eq]
    by_cases h : x = 0
    · rw [if_pos h, if_neg (not_not_intro h)]
      exact ih _ _ _ _
    · rw [if_neg h, if_pos h]
      exact ih _ _ _ _

/-- Cell access at the humidity column is the humidity field. -/
theorem Row.get_humidity (r : Row) : r.get .humidity = r.humidity := rfl

/-- Zipping two independently `dropna`-ed columns whose missingness agrees
row by row pairs values of one and the same row. -/
theorem zip_filterMap_aligned (c : Col) (rows : List Row)
    (h : ∀ r ∈ rows, (r.get c).isSome = r.humidity.isSome) :
    List.zip (rows.filterMap (fun r => r.get c))
        (rows.filterMap (fun r => r.humidity))
      = rows.filterMap (fun r =>
          match r.get c, r.humidity with
          | some t, some hu => some (t, hu)
          | _, _ => none) := by
  induction rows with
  | nil => rfl
  | cons r rest ih =>
    have hr := h r (List.mem_cons_self r rest)
    have hrest := ih (fun s hs => h s (List.mem_cons_of_mem r hs))
    cases hg : r.get c with
    | none =>
      cases hh : r.humidity with
      | none => simpa [List.filterMap_cons, hg, hh] using hrest
      | some hv => rw [hg, hh] at hr; simp at hr
    | some t =>
      cases hh : r.humidity with
      | none => rw [hg, hh] at hr; simp at hr
      | some hv =>
        simpa [List.filterMap_cons, hg, hh] using hrest

/-- Under row-aligned missingness, the comfort scores the code computes are
the row-paired scores of the specification. -/
theorem comfortScores_aligned (df : DataFrame) (c : Col)
    (h : ∀ r ∈ df.rows, (r.get c).isSome = r.humidity.isSome) :
    comfortScores df c = comfortScoresSpec df c := by
  unfold comfortScores comfortScoresSpec DataFrame.dropna
  simp only [Row.get_humidity]
  rw [zip_filterMap_aligned c df.rows h, List.map_filterMap]
  congr 1
  funext r
  cases r.get c <;> cases r.humidity <;> rfl

/-- Insertion grows the length by one. -/
theorem length_insertByDate (r : Row) (l : List Row) :
    (insertByDate r l).length = l.length + 1 := by
  induction l with
  | nil => rfl
  | cons s rest ih =>
    by_cases h : dateLe r s = true
    · simp [insertByDate, h]
    · simp [insertByDate, h, ih]

/-- Sorting by date preserves the number of rows. -/
theorem length_sortByDate (l : List Row) :
    (sortByDate l).length = l.length := by
  induction l with
  | nil => rfl
  | cons r rest ih => simp [sortByDate, List.foldr_cons, length_insertByDate]
                      simpa [sortByDate] using ih

/-- The non-missing pattern series is no longer than the frame. -/
theorem patternSeq_length_le (df : DataFrame) (c : Col) :
    (patternSeq df c).length ≤ df.rows.length := by
  unfold patternSeq patternRows
  by_cases h : df.hasCol .date = true
  · simp only [h, if_true]
    calc (List.filterMap _ (sortByDate df.rows)).length
        ≤ (sortByDate df.rows).length := List.length_filterMap_le _ _
      _ = df.rows.length := length_sortByDate df.rows
  · simp only [h, if_false]
    exact List.length_filterMap_le _ _

/-- The mean of a one-element series is its element. -/
theorem listMean_single (v : ℚ) : listMean [v] = v := by
  simp [listMean]

/-- Sum of a constant list. -/
theorem sum_of_all_eq (l : List ℚ) (v : ℚ) (h : ∀ x ∈ l, x = v) :
    l.sum = (l.length : ℚ) * v := by
  induction l with
  | nil => simp
  | cons x rest ih =>
    have hx := h x (List.mem_cons_self x rest)
    have hr := ih (fun y hy => h y (List.mem_cons_of_mem x hy))
    simp [hx, hr]
    ring

/-- Mean of a non-empty constant list. -/
theorem listMean_const (l : List ℚ) (v : ℚ) (hne : l ≠ [])
    (h : ∀ x ∈ l, x = v) : listMean l = v := by
  have hlen : (l.length : ℚ) ≠ 0 := by
    have : l.length ≠ 0 := by
      intro e; exact hne (List.length_eq_zero.mp e)
    exact_mod_cast this
  rw [listMean, sum_of_all_eq l v h, mul_div_cancel_left₀ _ hlen]

/-- Sample variance of a constant list is zero. -/
theorem sampleVar_const (l : List ℚ) (v : ℚ) (h : ∀ x ∈ l, x = v) :
    sampleVar l = 0 := by
  rcases eq_or_ne l [] with hl | hl
  · subst hl; simp [sampleVar]
  · have hmean := listMean_const l v hl h
    have hz : (l.map (fun x => (x - listMean l) ^ 2)).sum = 0 := by
      apply List.sum_eq_zero
      intro y hy
      obtain ⟨x, hx, hxy⟩ := List.mem_map.mp hy
      rw [← hxy, h x hx, hmean]
      ring
    rw [sampleVar, hz, zero_div]

/-- The heat branch emits at most one alert. -/
theorem heatAlerts_length (df : DataFrame) (c : Col) :
    (heatAlerts df c).length ≤ 1 := by
  simp only [heatAlerts]
  split
  · simp
  · split <;> simp

/-- Every heat alert carries one of the two heat titles and counts at least
one triggering day. -/
theorem mem_heatAlerts (df : DataFrame) (c : Col) (a : Alert)
    (h : a ∈ heatAlerts df c) :
    (a.title = "🔥 Cảnh báo nắng nóng cực đoan"
      ∨ a.title = "🌡️ Cảnh báo nắng nóng") ∧ 1 ≤ a.count := by
  simp only [heatAlerts] at h
  split at h
  case isTrue hne =>
    simp only [List.mem_singleton] at h
    subst h
    exact ⟨Or.inl rfl, List.length_pos.mpr hne⟩
  case isFalse hne =>
    split at h
    case isTrue hlen =>
      simp only [List.mem_singleton] at h
      subst h
      exact ⟨Or.inr rfl, hlen⟩
    case isFalse => cases h

/-- When some day reaches the extreme-heat threshold, the heat branch is
exactly one danger alert with the extreme title. -/
theorem heatAlerts_extreme (df : DataFrame) (c : Col)
    (h : rowsGE df c alert_thresholds.extreme_heat ≠ []) :
    ∃ a, heatAlerts df c = [a] ∧ a.atype = "danger"
      ∧ a.title = "🔥 Cảnh báo nắng nóng cực đoan" := by
  simp only [heatAlerts]
  rw [if_pos h]
  exact ⟨_, rfl, rfl, rfl⟩

/-- The cold branch emits at most one alert. -/
theorem coldAlerts_length (df : DataFrame) (c : Col) :
    (coldAlerts df c).length ≤ 1 := by
  simp only [coldAlerts]
  split <;> simp

/-- Every cold alert carries the cold title and a positive day count. -/
theorem mem_coldAlerts (df : DataFrame) (c : Col) (a : Alert)
    (h : a ∈ coldAlerts df c) :
    a.title = "❄️ Cảnh báo thời tiết lạnh" ∧ 1 ≤ a.count := by
  simp only [coldAlerts] at h
  split at h
  case isTrue hne =>
    simp only [List.mem_singleton] at h
    subst h
    exact ⟨rfl, List.length_pos.mpr hne⟩
  case isFalse => cases h

/-- The rain branch emits at most one alert. -/
theorem rainAlerts_length (df : DataFrame) :
    (rainAlerts df).length ≤ 1 := by
  simp only [rainAlerts]
  split
  · split <;> simp
  · simp

/-- Every rain alert carries the rain title and a positive day count. -/
theorem mem_rainAlerts (df : DataFrame) (a : Alert)
    (h : a ∈ rainAlerts df) :
    a.title = "🌧️ Cảnh báo mưa to" ∧ 1 ≤ a.count := by
  simp only [rainAlerts] at h
  split at h
  case isTrue =>
    split at h
    case isTrue hne =>
      simp only [List.mem_singleton] at h
      subst h
      exact ⟨rfl, List.length_pos.mpr hne⟩
    case isFalse => cases h
  case isFalse => cases h

/-- The wind branch emits at most one alert. -/
theorem windAlerts_length (df : DataFrame) :
    (windAlerts df).length ≤ 1 := by
  simp only [windAlerts]
  split
  · split <;> simp
  · simp

/-- Every wind alert carries the wind title and a positive day count. -/
theorem mem_windAlerts (df : DataFrame) (a : Alert)
    (h : a ∈ windAlerts df) :
    a.title = "💨 Cảnh báo gió mạnh" ∧ 1 ≤ a.count := by
  simp only [windAlerts] at h
  split at h
  case h_1 =>
    split at h
    case isTrue hne =>
      simp only [List.mem_singleton] at h
      subst h
      exact ⟨rfl, List.length_pos.mpr hne⟩
    case isFalse => cases h
  case h_2 => cases h

/-!
### Concrete frames used by witnesses and counterexamples
-/

def rowTM (v : ℚ) : Row := { temp_mean := some v }

def rowTe (v : ℚ) : Row := { temperature := some v }

def rowP (v : ℚ) : Row := { precipitation := some v }

/-- Misaligned missingness: row 0 has only humidity, row 1 has only
temperature. -/
def dfC1x : DataFrame :=
  { cols := [.date, .temperature, .humidity]
    rows := [{ date := some 0, humidity := some 50 },
             { date := some 1, temperature := some 20 }] }

/-- Aligned missingness: row 0 has both values, row 1 has neither. -/
def dfC1w : DataFrame :=
  { cols := [.date, .temperature, .humidity]
    rows := [{ date := some 0, temperature := some 22, humidity := some 50 },
             { date := some 1 }] }

def dfC2x : DataFrame := { cols := [.temp_mean], rows := [rowTM 20] }

def dfC2w : DataFrame := { cols := [.temp_mean], rows := [rowTM 25] }

/-- Exactly one non-missing temperature value. -/
def dfC3x : DataFrame := { cols := [.temp_mean], rows := [rowTM 20, {}] }

def dfC3w : DataFrame := { cols := [.temp_mean], rows := [rowTM 18] }

/-- Nine non-missing values. -/
def dfC4small : DataFrame :=
  { cols := [.temp_mean]
    rows := [rowTM 5, rowTM 5, rowTM 5, rowTM 5, rowTM 5,
             rowTM 5, rowTM 5, rowTM 5, rowTM 5] }

/-- Ten non-missing values with one outlier. -/
def dfC4big : DataFrame :=
  { cols := [.temp_mean]
    rows := [rowTM 0, rowTM 0, rowTM 0, rowTM 0, rowTM 0,
             rowTM 0, rowTM 0, rowTM 0, rowTM 0, rowTM 100] }

/-- Ten equal values. -/
def dfC5w : DataFrame :=
  { cols := [.temp_mean]
    rows := [rowTM 7, rowTM 7, rowTM 7, rowTM 7, rowTM 7,
             rowTM 7, rowTM 7, rowTM 7, rowTM 7, rowTM 7] }

/-- A single day at 39 degrees. -/
def dfC6w : DataFrame := { cols := [.temperature], rows := [rowTe 39] }

/-- Precipitation `[-1, 1, 1, 0, 0, 0, 0]`. -/
def dfC7x : DataFrame :=
  { cols := [.precipitation]
    rows := [rowP (-1), rowP 1, rowP 1, rowP 0, rowP 0, rowP 0, rowP 0] }

/-- Precipitation `[0, 0, 0, 0, 0, 0, 1]`: a six-day dry run. -/
def dfC7w : DataFrame :=
  { cols := [.precipitation]
    rows := [rowP 0, rowP 0, rowP 0, rowP 0, rowP 0, rowP 0, rowP 1] }

/-- Temperature `[36, 36, 36, 30, 30, 30, 30]`. -/
def dfC8w : DataFrame :=
  { cols := [.temperature]
    rows := [rowTe 36, rowTe 36, rowTe 36, rowTe 30, rowTe 30, rowTe 30, rowTe 30] }

def dfC9w : DataFrame :=
  { cols := [.temp_mean, .precipitation]
    rows := [{ temp_mean := some 20, precipitation := some 5 }] }

def dfC10w : DataFrame := { cols := [], rows := [] }

/-!
### Claim theorems

Rational arithmetic from Batteries is `@[irreducible]`; concrete witnesses
are evaluated by `decide`, so the arithmetic is made reducible for this
section.
-/

section ClaimTheorems

attribute [local semireducible] Rat.add Rat.mul Rat.inv Rat.sub Rat.ofScientific

/-- C3 (corrected): for a series whose temperature column has exactly one
non-missing value, `calculate_statistics` does NOT omit the std field: the
temperature block contains the key `"std"` with value NaN (pandas sample std
of a single value). -/
theorem C3_counterexample :
    (dfC3x.dropna .temp_mean).length = 1
    ∧ ((calculate_statistics dfC3x .temp_mean).temperature).map
        (fun b => b.lookup "std") = some (some PyVal.nan)
    ∧ ((calculate_statistics dfC3x .temp_mean).temperature).map
        (fun b => b.lookup "std") ≠ some none :=
  ⟨by decide, by decide, by decide⟩

/-- C3 (amended): for every series whose temperature column has exactly one
non-missing value `v`, the temperature block of `calculate_statistics` is
emitted with mean, min and max equal to `round1 v` and with the std field
present and equal to NaN — the field is not omitted. -/
theorem C3_std_nan_for_single_value (df : DataFrame) (tcol : Col) (v : ℚ)
    (hcol : df.hasCol tcol = true)
    (hone : df.dropna tcol = [v]) :
    (calculate_statistics df tcol).temperature
      = some [("mean", .q (round1 v)), ("min", .q (round1 v)),
              ("max", .q (round1 v)), ("std", PyVal.nan)] := by
  have hrows : df.rows ≠ [] := by
    intro e
    have hd : df.dropna tcol = [] := by simp [DataFrame.dropna, e]
    rw [hd] at hone
    cases hone
  simp only [calculate_statistics, if_neg hrows, hcol, if_true, hone]
  have hnil : ([v] : List ℚ) ≠ [] := by simp
  rw [if_neg hnil]
  simp [listMean_single, pyStdRound1, listMin, listMax]

/-- Witness for C3: the one-value frame `dfC3w` instantiates the amended
statement. -/
theorem C3_witness :
    (calculate_statistics dfC3w .temp_mean).temperature
      = some [("mean", .q (round1 18)), ("min", .q (round1 18)),
              ("max", .q (round1 18)), ("std", PyVal.nan)] :=
  C3_std_nan_for_single_value dfC3w .temp_mean 18 (by decide) (by decide)

/-- C4 (confirmed): `detect_anomalies` returns empty for fewer than 10
non-missing values, always returns a subset of the frame's rows, and can
return a non-empty result at 10 values. -/
theorem C4_insufficient_sample :
    (∀ (df : DataFrame) (c : Col) (t : ℚ),
        (df.dropna c).length < 10 → detect_anomalies df c t = [])
    ∧ (∀ (df : DataFrame) (c : Col) (t : ℚ),
        ∀ r ∈ detect_anomalies df c t, r ∈ df.rows)
    ∧ (∃ df : DataFrame,
        10 ≤ (df.dropna .temp_mean).length ∧ detect_anomalies df .temp_mean 2 ≠ []) := by
  refine ⟨?_, ?_, ⟨dfC4big, by decide, by decide⟩⟩
  · intro df c t h10
    by_cases hcase : df.rows = [] ∨ df.hasCol c = false
    · simp only [detect_anomalies, if_pos hcase]
    · simp only [detect_anomalies, if_neg hcase]
      rw [if_pos h10]
  · intro df c t r hr
    simp only [detect_anomalies] at hr
    split at hr
    · cases hr
    · split at hr
      · cases hr
      · exact List.mem_of_mem_filter hr

/-- Witness for C4: nine values give an empty result. -/
theorem C4_witness :
    (dfC4small.dropna .temp_mean).length < 10
    ∧ detect_anomalies dfC4small .temp_mean 2 = [] :=
  ⟨by decide, C4_insufficient_sample.1 dfC4small .temp_mean 2 (by decide)⟩

/-- C5 (confirmed): a constant series of at least 10 values has zero sample
variance; no division-by-zero error is possible in the embedding (the flag
is total) and the anomaly set is empty, since every z-score is NaN. -/
theorem C5_constant_series (df : DataFrame) (c : Col) (t v : ℚ)
    (h10 : 10 ≤ (df.dropna c).length)
    (hconst : ∀ x ∈ df.dropna c, x = v) :
    detect_anomalies df c t = [] := by
  by_cases hcase : df.rows = [] ∨ df.hasCol c = false
  · simp only [detect_anomalies, if_pos hcase]
  · have hne : df.dropna c ≠ [] := by
      intro e
      rw [e] at h10
      simp at h10
    have hmean : listMean (df.dropna c) = v := listMean_const _ v hne hconst
    have hvar : sampleVar (df.dropna c) = 0 := sampleVar_const _ v hconst
    simp only [detect_anomalies, if_neg hcase]
    rw [if_neg (by omega : ¬ (df.dropna c).length < 10)]
    rw [List.filter_eq_nil_iff]
    intro r hr
    cases hrg : r.get c with
    | none => simp [anomalyFlag, hrg]
    | some x =>
      have hx : x ∈ df.dropna c := List.mem_filterMap.mpr ⟨r, hr, hrg⟩
      have hxv : x = v := hconst x hx
      simp [anomalyFlag, hrg, hvar, hmean, hxv]

/-- Witness for C5: ten equal values yield no anomalies. -/
theorem C5_witness :
    10 ≤ (dfC5w.dropna .temp_mean).length
    ∧ detect_anomalies dfC5w .temp_mean 2 = [] :=
  ⟨by decide, C5_constant_series dfC5w .temp_mean 2 7 (by decide) (by decide)⟩

/-- C9 (confirmed): `calculate_statistics` is a deterministic pure function
of the series contents — two calls on equal frames give equal results. -/
theorem C9_deterministic (df₁ df₂ : DataFrame) (c : Col) (h : df₁ = df₂) :
    calculate_statistics df₁ c = calculate_statistics df₂ c := by
  rw [h]

/-- Witness for C9. -/
theorem C9_witness :
    calculate_statistics dfC9w .temp_mean = calculate_statistics dfC9w .temp_mean :=
  C9_deterministic dfC9w dfC9w .temp_mean rfl

/-- C6 (confirmed): whenever the resolved temperature column has a day at or
above 38, `generate_weather_alerts` contains a danger extreme-heat alert and
no high-heat warning (the `elif` makes extreme supersede high). -/
theorem C6_extreme_supersedes (df : DataFrame) (c : Col)
    (hres : resolveTempCol df = some c)
    (hex : rowsGE df c 38 ≠ []) :
    (∃ a ∈ generate_weather_alerts df,
        a.atype = "danger" ∧ a.title = "🔥 Cảnh báo nắng nóng cực đoan")
    ∧ ∀ a ∈ generate_weather_alerts df, a.title ≠ "🌡️ Cảnh báo nắng nóng" := by
  have hrows : df.rows ≠ [] := by
    obtain ⟨r, hr⟩ := List.exists_mem_of_ne_nil _ hex
    exact List.ne_nil_of_mem (List.mem_of_mem_filter hr)
  have hex' : rowsGE df c alert_thresholds.extreme_heat ≠ [] := hex
  obtain ⟨ea, hea, hty, hti⟩ := heatAlerts_extreme df c hex'
  have egen : generate_weather_alerts df
      = heatAlerts df c ++ coldAlerts df c ++ rainAlerts df ++ windAlerts df := by
    simp only [generate_weather_alerts, if_neg hrows, hres]
  constructor
  · refine ⟨ea, ?_, hty, hti⟩
    rw [egen, hea]
    exact List.mem_append_left _ (List.mem_append_left _
      (List.mem_append_left _ (List.mem_cons_self _ _)))
  · intro a ha
    rw [egen] at ha
    rcases List.mem_append.mp ha with h' | hw
    · rcases List.mem_append.mp h' with h'' | hrn
      · rcases List.mem_append.mp h'' with hh | hcold
        · rw [hea] at hh
          simp only [List.mem_singleton] at hh
          subst hh
          rw [hti]
          decide
        · rw [(mem_coldAlerts df c a hcold).1]
          decide
      · rw [(mem_rainAlerts df a hrn).1]
        decide
    · rw [(mem_windAlerts df a hw).1]
      decide

/-- Witness for C6: a single day at 39 yields exactly the danger alert. -/
theorem C6_witness :
    (∃ a ∈ generate_weather_alerts dfC6w,
        a.atype = "danger" ∧ a.title = "🔥 Cảnh báo nắng nóng cực đoan")
    ∧ ∀ a ∈ generate_weather_alerts dfC6w, a.title ≠ "🌡️ Cảnh báo nắng nóng" :=
  C6_extreme_supersedes dfC6w .temperature (by decide) (by decide)

/-- C10 (confirmed): the alert list of `generate_weather_alerts` decomposes
into heat, cold, precipitation and wind segments in that order, each of
length at most one, so at most four alerts in total; every alert counts at
least one triggering day; an empty frame yields no alerts. -/
theorem C10_alert_shape (df : DataFrame) :
    (df.rows = [] → generate_weather_alerts df = [])
    ∧ (∃ hs cs rs ws,
        generate_weather_alerts df = hs ++ cs ++ rs ++ ws
        ∧ hs.length ≤ 1 ∧ cs.length ≤ 1 ∧ rs.length ≤ 1 ∧ ws.length ≤ 1
        ∧ (∀ a ∈ hs, a.title = "🔥 Cảnh báo nắng nóng cực đoan"
              ∨ a.title = "🌡️ Cảnh báo nắng nóng")
        ∧ (∀ a ∈ cs, a.title = "❄️ Cảnh báo thời tiết lạnh")
        ∧ (∀ a ∈ rs, a.title = "🌧️ Cảnh báo mưa to")
        ∧ (∀ a ∈ ws, a.title = "💨 Cảnh báo gió mạnh"))
    ∧ (generate_weather_alerts df).length ≤ 4
    ∧ (∀ a ∈ generate_weather_alerts df, 1 ≤ a.count) := by
  by_cases hrows : df.rows = []
  · have e : generate_weather_alerts df = [] := by
      simp [generate_weather_alerts, hrows]
    refine ⟨fun _ => e, ⟨[], [], [], [], by simp [e], ?_, ?_, ?_, ?_, ?_, ?_, ?_, ?_⟩,
      by simp [e], by simp [e]⟩ <;> simp
  · rcases htc : resolveTempCol df with _ | c
    · have egen : generate_weather_alerts df = rainAlerts df ++ windAlerts df := by
        simp [generate_weather_alerts, if_neg hrows, htc]
      refine ⟨fun h => absurd h hrows,
        ⟨[], [], rainAlerts df, windAlerts df, by simp [egen], by simp, by simp,
         rainAlerts_length df, windAlerts_length df, by simp, by simp,
         fun a ha => (mem_rainAlerts df a ha).1,
         fun a ha => (mem_windAlerts df a ha).1⟩, ?_, ?_⟩
      · rw [egen, List.length_append]
        have h1 := rainAlerts_length df
        have h2 := windAlerts_length df
        omega
      · intro a ha
        rw [egen] at ha
        rcases List.mem_append.mp ha with h | h
        · exact (mem_rainAlerts df a h).2
        · exact (mem_windAlerts df a h).2
    · have egen : generate_weather_alerts df
          = heatAlerts df c ++ coldAlerts df c ++ rainAlerts df ++ windAlerts df := by
        simp only [generate_weather_alerts, if_neg hrows, htc]
      refine ⟨fun h => absurd h hrows,
        ⟨heatAlerts df c, coldAlerts df c, rainAlerts df, windAlerts df, egen,
         heatAlerts_length df c, coldAlerts_length df c,
         rainAlerts_length df, windAlerts_length df,
         fun a ha => (mem_heatAlerts df c a ha).1,
         fun a ha => (mem_coldAlerts df c a ha).1,
         fun a ha => (mem_rainAlerts df a ha).1,
         fun a ha => (mem_windAlerts df a ha).1⟩, ?_, ?_⟩
      · rw [egen]
        simp only [List.length_append]
        have h1 := heatAlerts_length df c
        have h2 := coldAlerts_length df c
        have h3 := rainAlerts_length df
        have h4 := windAlerts_length df
        omega
      · intro a ha
        rw [egen] at ha
        rcases List.mem_append.mp ha with h' | h
        · rcases List.mem_append.mp h' with h'' | h
          · rcases List.mem_append.mp h'' with h | h
            · exact (mem_heatAlerts df c a h).2
            · exact (mem_coldAlerts df c a h).2
          · exact (mem_rainAlerts df a h).2
        · exact (mem_windAlerts df a h).2

/-- Witness for C10: the empty frame yields the empty alert list. -/
theorem C10_witness : generate_weather_alerts dfC10w = [] :=
  (C10_alert_shape dfC10w).1 rfl

/-- C8 (confirmed): over a frame whose processed temperature series has at
least 7 values, the heat-wave day count is the sum, over the maximal runs of
consecutive days above 35, of the days that are 3rd or later in their
run. -/
theorem C8_heat_wave_runs (df : DataFrame) (c : Col)
    (hres : resolveTempCol df = some c)
    (hlen : 7 ≤ (patternSeq df c).length) :
    ∃ tp, (detect_weather_patterns df).temperature_patterns = some tp
      ∧ tp.heat_wave_days
          = spellSum 3 (runLengths (fun t => decide (35 < t)) (patternSeq df c)) := by
  have hle := patternSeq_length_le df c
  have h7 : ¬ df.rows.length < 7 := by omega
  simp only [detect_weather_patterns, if_neg h7, hres]
  rw [if_pos hlen]
  exact ⟨_, rfl, streakCount_runLengths 3 _ _⟩

/-- Witness for C8: temperatures `[36, 36, 36, 30, 30, 30, 30]` give
heat-wave day count 1. -/
theorem C8_witness :
    (∃ tp, (detect_weather_patterns dfC8w).temperature_patterns = some tp
      ∧ tp.heat_wave_days
          = spellSum 3 (runLengths (fun t => decide (35 < t)) (patternSeq dfC8w .temperature)))
    ∧ ((detect_weather_patterns dfC8w).temperature_patterns).map TempPatterns.heat_wave_days
        = some 1 :=
  ⟨C8_heat_wave_runs dfC8w .temperature (by decide) (by decide), by decide⟩

/-- C7 (corrected): the wet-spell counter advances on any non-zero
precipitation value (the code's `else` branch), not only on positive ones;
on `[-1, 1, 1, 0, 0, 0, 0]` the code counts one wet-spell day while the sum
over maximal runs of positive days is zero. -/
theorem C7_counterexample :
    ((detect_weather_patterns dfC7x).precipitation_patterns).map
        PrecipPatterns.wet_spell_days = some 1
    ∧ spellSum 3 (runLengths (fun p => decide (0 < p)) (patternSeq dfC7x .precipitation)) = 0
    ∧ ((detect_weather_patterns dfC7x).precipitation_patterns).map
        PrecipPatterns.wet_spell_days
        ≠ some (spellSum 3
            (runLengths (fun p => decide (0 < p)) (patternSeq dfC7x .precipitation))) :=
  ⟨by decide, by decide, by decide⟩

/-- C7 (amended): over a frame whose processed precipitation series has at
least 7 values, each maximal run of k consecutive zero-precipitation days
contributes `max 0 (k-4)` dry-spell days and each maximal run of k
consecutive non-zero-precipitation days contributes `max 0 (k-2)` wet-spell
days. -/
theorem C7_spell_runs (df : DataFrame)
    (hp : df.hasCol .precipitation = true)
    (hlen : 7 ≤ (patternSeq df .precipitation).length) :
    ∃ pp, (detect_weather_patterns df).precipitation_patterns = some pp
      ∧ pp.dry_spell_days
          = spellSum 5 (runLengths (fun p => decide (p = 0)) (patternSeq df .precipitation))
      ∧ pp.wet_spell_days
          = spellSum 3 (runLengths (fun p => decide (¬ p = 0)) (patternSeq df .precipitation)) := by
  have hle := patternSeq_length_le df .precipitation
  have h7 : ¬ df.rows.length < 7 := by omega
  simp only [detect_weather_patterns, if_neg h7, hp, if_true]
  rw [if_pos hlen]
  refine ⟨_, rfl, ?_, ?_⟩
  · exact (spellFold_dry _ 0 0 0 0).trans (streakCount_runLengths 5 _ _)
  · exact (spellFold_wet _ 0 0 0 0).trans (streakCount_runLengths 3 _ _)

/-- Witness for C7: six zero days then one rainy day give dry-spell count 2
(and the run decomposition agrees). -/
theorem C7_witness :
    (∃ pp, (detect_weather_patterns dfC7w).precipitation_patterns = some pp
      ∧ pp.dry_spell_days
          = spellSum 5 (runLengths (fun p => decide (p = 0)) (patternSeq dfC7w .precipitation))
      ∧ pp.wet_spell_days
          = spellSum 3 (runLengths (fun p => decide (¬ p = 0)) (patternSeq dfC7w .precipitation)))
    ∧ ((detect_weather_patterns dfC7w).precipitation_patterns).map
        PrecipPatterns.dry_spell_days = some 2 :=
  ⟨C7_spell_runs dfC7w (by decide) (by decide), by decide⟩

/-- C1 (corrected): the comfort scores do not pair values of one and the
same row.  On `dfC1x` no row has both a temperature and a humidity value,
yet the code produces a comfort index with one comfortable day, because
`zip` pairs the humidity of row 0 with the temperature of row 1 after the
two columns are `dropna`-ed separately. -/
theorem C1_counterexample :
    resolveTempCol dfC1x = some .temperature
    ∧ (calculate_climate_indices dfC1x).comfort_index
        = some { comfort_score := 100, comfort_level := "Rất thoải mái",
                 comfortable_days := 1 }
    ∧ comfortScoresSpec dfC1x .temperature = []
    ∧ comfortScores dfC1x .temperature ≠ comfortScoresSpec dfC1x .temperature :=
  ⟨by decide, by decide, by decide, by decide⟩

/-- C1 (amended): when temperature and humidity are non-missing on exactly
the same rows, every comfort score of `calculate_climate_indices` pairs the
temperature and humidity of one and the same row, in row order, and a row
missing either value contributes no score. -/
theorem C1_row_aligned_pairing (df : DataFrame) (c : Col)
    (_hres : resolveTempCol df = some c)
    (halign : ∀ r ∈ df.rows, (r.get c).isSome = r.humidity.isSome) :
    comfortScores df c = comfortScoresSpec df c :=
  comfortScores_aligned df c halign

/-- Witness for C1: an aligned frame (one row with both values, one row with
neither). -/
theorem C1_witness :
    comfortScores dfC1w .temperature = comfortScoresSpec dfC1w .temperature :=
  C1_row_aligned_pairing dfC1w .temperature (by decide) (by decide)

/-- C2 (corrected): with the precipitation and humidity columns absent, the
weekly template omits the precipitation commentary but still renders
zero-filled statistics lines, and the daily template renders an `N/A`
placeholder. -/
theorem C2_absent_column_rendering (df : DataFrame) (city now : String)
    (hrows : df.rows ≠ []) (hp : df.hasCol .precipitation = false)
    (hh : df.hasCol .humidity = false) :
    weeklyPrecipComment df = []
    ∧ weeklyPrecipLines df
        = ["- **Tổng lượng mưa:** 0.0mm", "- **Số ngày mưa:** 0 ngày"]
    ∧ "- **Tổng lượng mưa:** 0.0mm" ∈ weeklyLines df city now
    ∧ "- **💧 Độ ẩm:** N/A%" ∈ dailyLines df city now := by
  have hps : weeklyPrecipStats df = none := by
    simp [weeklyPrecipStats, hp]
  have h1 : weeklyPrecipComment df = [] := by
    simp [weeklyPrecipComment, hps]
  have h2 : weeklyPrecipLines df
      = ["- **Tổng lượng mưa:** 0.0mm", "- **Số ngày mưa:** 0 ngày"] := by
    simp only [weeklyPrecipLines, hps, Option.elim_none]
    decide
  have hcell : renderCell (cellOf df (lastRow df) .humidity) = "N/A" := by
    simp [cellOf, hh, renderCell]
  have he : "- **💧 Độ ẩm:** " ++ renderCell (cellOf df (lastRow df) .humidity) ++ "%"
      = "- **💧 Độ ẩm:** N/A%" := by
    rw [hcell]
    decide
  refine ⟨h1, h2, ?_, ?_⟩
  · simp only [weeklyLines, if_neg hrows]
    exact List.mem_append_left _ (List.mem_append_left _ (List.mem_append_left _
      (List.mem_append_left _ (List.mem_append_left _ (List.mem_append_right _
        (by rw [h2]; exact List.mem_cons_self _ _))))))
  · simp only [dailyLines, if_neg hrows]
    refine List.mem_append_left _ (List.mem_append_left _ (List.mem_append_left _
      (List.mem_append_right _ ?_)))
    simp only [dailyParamLines]
    rw [← he]
    exact List.mem_cons_of_mem _ (List.mem_cons_self _ _)

/-- Witness for C2. -/
theorem C2_witness :
    weeklyPrecipComment dfC2w = []
    ∧ weeklyPrecipLines dfC2w
        = ["- **Tổng lượng mưa:** 0.0mm", "- **Số ngày mưa:** 0 ngày"]
    ∧ "- **Tổng lượng mưa:** 0.0mm" ∈ weeklyLines dfC2w "Đà Nẵng" "09:00 06/10/2026"
    ∧ "- **💧 Độ ẩm:** N/A%" ∈ dailyLines dfC2w "Đà Nẵng" "09:00 06/10/2026" :=
  C2_absent_column_rendering dfC2w "Đà Nẵng" "09:00 06/10/2026"
    (by decide) (by decide) (by decide)

/-- C2 (counterexample to the claim as stated): a non-empty frame with no
precipitation and no humidity column still renders a zero value and an
`N/A` placeholder in the produced text. -/
theorem C2_counterexample :
    dfC2x.hasCol .precipitation = false
    ∧ "- **Tổng lượng mưa:** 0.0mm" ∈ weeklyLines dfC2x "Hà Nội" "08:00 05/10/2026"
    ∧ dfC2x.hasCol .humidity = false
    ∧ "- **💧 Độ ẩm:** N/A%" ∈ dailyLines dfC2x "Hà Nội" "08:00 05/10/2026" :=
  ⟨by decide, by decide, by decide, by decide⟩

end ClaimTheorems

end BV
